import Mathlib

/-!
Verification of the PyPCAPKit (jspcap) reassembly and extraction core.

Part 1 embeds `src/dev/jspcap/reassembly/ip.py` (`IP_Reassembly.reassembly`).
The embedding follows CPython semantics for that function, including its
treatment of local and global names: the method body subscripts the per-BUFID
dictionary with the *values* of the local names `data`, `RCVBT` and `header`
(lines 56, 61, 69, 74 of the source) instead of the string keys used to
create the entry, and appends `Info(packet)` (line 40) although `Info` is
never imported into the module.  Under CPython scoping rules, `data` and
`header` are function locals (they are assigned on lines 35/77 and 34/76),
so an occurrence before any assignment raises `UnboundLocalError`; `RCVBT`
and `Info` are global lookups that fail with `NameError`.  The embedding
makes the binding state of those locals explicit and raises the same errors
at the same program points.
-/

namespace PCAPKit

/-- Python exception values that the embedded code can raise. -/
inductive PyErr where
  | nameError (n : String)
  | unboundLocalError (n : String)
  | typeError (msg : String)
  deriving Repr, DecidableEq

/-- Fragment descriptor, the tuple `(FO, IHL, MF, TL, BUFID)` returned by the
abstract method `self._ip_reassembly(buf)` (ip.py line 29), together with the
raw payload `buf.raw` and header `buf.header` read on lines 56 and 69.
`fo` is the byte offset, `ihl` the header length, `mf` the more-fragments
flag, `tl` the total (header plus payload) length.  The BUFID is abstracted
to a natural number; only its equality is ever used by the source. -/
structure IPFrag where
  fo : Nat
  ihl : Nat
  mf : Bool
  tl : Nat
  bufid : Nat
  raw : List Nat
  header : List Nat
  deriving Repr, DecidableEq

/-- Reassembled packet, the `dict(header=..., payload=...)` built on lines
36-39 and 78-81 of ip.py. -/
structure Datagram where
  header : List Nat
  payload : List Nat
  deriving Repr, DecidableEq

/-- Per-BUFID buffer entry created on ip.py lines 46-51: total data length,
received-bit table of 8191 bytes, 65535-byte data region, header buffer. -/
structure IPBuf where
  TDL : Nat
  RCVBT : List Nat
  data : List Nat
  header : List Nat
  deriving Repr, DecidableEq

/-- The fresh buffer entry of ip.py lines 46-51. -/
def initIPBuf : IPBuf :=
  { TDL := 0
    RCVBT := List.replicate 8191 0
    data := List.replicate 65535 0
    header := [] }

/-- Python slice `l[a:b]` on a byte sequence (indices clamp to the length). -/
def pySlice (l : List Nat) (a b : Nat) : List Nat :=
  (l.take b).drop a

/-- Membership test / item lookup for the `buffer` dict keyed by BUFID. -/
def lookupBuf : List (Nat × IPBuf) → Nat → Option IPBuf
  | [], _ => none
  | (k, v) :: rest, key => if k = key then some v else lookupBuf rest key

/-- State of one call of `reassembly`: the local dict `buffer` (line 25), the
local list `datagram` (line 26), and the binding state of the function locals
`data`, `header` and `TDL`, which CPython treats as locals of the whole
function body, so a binding made in one loop iteration would be visible in
later iterations. -/
structure RState where
  buffer : List (Nat × IPBuf)
  datagram : List Datagram
  locData : Option (List Nat)
  locHeader : Option (List Nat)
  locTDL : Option Nat
  deriving Repr, DecidableEq

/-- State at the top of the loop on the first iteration (ip.py lines 25-26):
empty buffer dict, empty datagram list, all three locals unbound. -/
def initRState : RState :=
  { buffer := [], datagram := [], locData := none, locHeader := none, locTDL := none }

/-- Continuation of the loop body from ip.py line 44 on: ensure a buffer
entry exists for BUFID (lines 45-51), then execute the data-buffer write of
lines 53-56.  Line 56 is `buffer[BUFID][data][start:stop] = buf.raw`: after
`buffer[BUFID]` is evaluated, the subscript expression evaluates the local
name `data`.  If `data` is unbound this raises `UnboundLocalError`; if some
earlier iteration had bound it (lines 35/77 bind it to a `bytearray` slice),
subscripting a dict with a `bytearray` raises `TypeError` because bytearrays
are unhashable.  Either way line 56 raises, so the statements on lines 58-83
(the `RCVBT` update, which would itself fail on the undefined global name
`RCVBT`; the `TDL` assignment; the header capture, which subscripts with the
local `header`; and the completion check, which reads the undefined global
`RCVBT` again) are unreachable. -/
def reassemblyBody (st : RState) (BUFID : Nat) : Except PyErr RState :=
  let _buffer1 := if (lookupBuf st.buffer BUFID).isSome then st.buffer
                  else st.buffer ++ [(BUFID, initIPBuf)]
  match st.locData with
  | none => Except.error (PyErr.unboundLocalError "data")
  | some _ => Except.error (PyErr.typeError "unhashable type: bytearray")

/-- One iteration of the `for buf in info` loop of `IP_Reassembly.reassembly`
(ip.py lines 27-83).  Lines 31-42 handle an unfragmented packet (`FO == 0`
and `MF` false): when a buffer for its BUFID already exists, line 34 binds
the local `header`, line 35 binds the local `data` to the slice
`buffer[BUFID]['data'][IHL:TL]`, and line 40 then evaluates the global name
`Info`, which is never defined or imported in the module, raising
`NameError`.  When no buffer exists for the BUFID, there is no emit branch:
control falls through to the buffering path (`reassemblyBody`). -/
def reassemblyStep (st : RState) (buf : IPFrag) : Except PyErr RState :=
  let FO := buf.fo
  let IHL := buf.ihl
  let MF := buf.mf
  let TL := buf.tl
  let BUFID := buf.bufid
  if FO = 0 ∧ MF = false then
    match lookupBuf st.buffer BUFID with
    | some b =>
        let _header := b.header
        let _data := pySlice b.data IHL TL
        Except.error (PyErr.nameError "Info")
    | none => reassemblyBody st BUFID
  else reassemblyBody st BUFID

/-- The `for buf in info` loop: run iterations until the list is exhausted or
an exception propagates. -/
def runLoop : RState → List IPFrag → Except PyErr RState
  | st, [] => Except.ok st
  | st, buf :: rest =>
    match reassemblyStep st buf with
    | Except.ok st1 => runLoop st1 rest
    | Except.error e => Except.error e

/-- `IP_Reassembly.reassembly(self, info)` (ip.py lines 24-85): start from an
empty buffer dict and datagram list, process each fragment of `info`, and
return `tuple(datagram)`; an uncaught exception propagates to the caller. -/
def reassembly (info : List IPFrag) : Except PyErr (List Datagram) :=
  match runLoop initRState info with
  | Except.ok st => Except.ok st.datagram
  | Except.error e => Except.error e

/-- Datagrams actually delivered to the caller: a call that raises an
exception delivers none. -/
def emitted : Except PyErr (List Datagram) → List Datagram
  | Except.ok ds => ds
  | Except.error _ => []

/-- Payload span of a fragment, `TL - IHL` (ip.py line 55). -/
def fragSpan (f : IPFrag) : Nat := f.tl - f.ihl

/-- Total payload length declared by the fragments of a submission: the
largest `FO + (TL - IHL)` among fragments with the more-fragments flag
clear (spec section 4.1 step 6).  Zero when no terminal fragment occurs. -/
def declaredTotal (info : List IPFrag) : Nat :=
  info.foldl (fun m f => if f.mf then m else max m (f.fo + fragSpan f)) 0

/-- Whether payload byte `b` is covered by some submitted fragment. -/
def coversByte (info : List IPFrag) (b : Nat) : Bool :=
  info.any (fun f => decide (f.fo ≤ b) && decide (b < f.fo + fragSpan f))

/-- Whether some byte below the declared total length is never covered: the
hole condition of spec sections 3 and 8. -/
def holeRemains (info : List IPFrag) : Bool :=
  (List.range (declaredTotal info)).any (fun b => !(coversByte info b))

theorem reassemblyStep_init_error (buf : IPFrag) :
    reassemblyStep initRState buf = Except.error (PyErr.unboundLocalError "data") := by
  unfold reassemblyStep reassemblyBody
  by_cases h : buf.fo = 0 ∧ buf.mf = false <;>
    simp [h, lookupBuf, initRState]

theorem reassembly_cons_error (buf : IPFrag) (rest : List IPFrag) :
    reassembly (buf :: rest) = Except.error (PyErr.unboundLocalError "data") := by
  simp [reassembly, runLoop, reassemblyStep_init_error]

/-- C1.  Claimed: for a fragment set of one BUFID whose byte ranges exactly
tile `[0, TL)`, submitting all fragments makes the engine emit exactly one
completed datagram.  The code instead raises `UnboundLocalError` for the
local name `data` at the data-buffer write (ip.py line 56) on the very first
fragment, and emits nothing.  Shown here on two fragments of BUFID 0 that
tile the 16-byte payload `[0, 16)` exactly (each covers 8 bytes, IHL 20,
TL 28, the second carrying MF false). -/
theorem C1_tiling_code_raises :
    reassembly
      [{ fo := 0, ihl := 20, mf := true, tl := 28, bufid := 0,
         raw := [1, 2, 3, 4, 5, 6, 7, 8], header := [9, 9, 9, 9] },
       { fo := 8, ihl := 20, mf := false, tl := 28, bufid := 0,
         raw := [11, 12, 13, 14, 15, 16, 17, 18], header := [9, 9, 9, 9] }] =
      Except.error (PyErr.unboundLocalError "data") :=
  reassembly_cons_error _ _

/-- C2.  Claimed: an unfragmented packet (`FO = 0`, `MF` false) whose BUFID
has no buffer is emitted immediately with zero buffering.  The code has no
emit branch for that case (ip.py lines 32-42 only handle `BUFID in buffer`):
the packet falls through to the buffering path and the call raises
`UnboundLocalError` for `data` at line 56, emitting nothing. -/
theorem C2_fastpath_code_raises :
    reassembly
      [{ fo := 0, ihl := 20, mf := false, tl := 40, bufid := 3,
         raw := List.replicate 20 7, header := List.replicate 20 1 }] =
      Except.error (PyErr.unboundLocalError "data") :=
  reassembly_cons_error _ _

/-- C3.  Claimed: once the receipt map covers `[0, total_length)`, the same
call emits header plus data truncated to the total length and removes the
buffer.  The completion check of ip.py lines 71-83 is unreachable: every
submission raises `UnboundLocalError` at line 56 first.  Shown here on a
single terminal fragment that would give full coverage of its declared
total length. -/
theorem C3_completion_code_raises :
    reassembly
      [{ fo := 0, ihl := 20, mf := false, tl := 36, bufid := 4,
         raw := List.replicate 16 5, header := List.replicate 20 2 }] =
      Except.error (PyErr.unboundLocalError "data") :=
  reassembly_cons_error _ _

/-- C5.  For every submission of fragments of one BUFID in which some byte
below the declared total length is never covered, the engine emits zero
completed results.  This holds of the code, though degenerately: every
non-empty submission raises `UnboundLocalError` before the completion check
can run, so no datagram is ever delivered (complete fragment sets receive
none either, see C1). -/
theorem C5_hole_no_completion (info : List IPFrag) (B : Nat)
    (hB : ∀ f ∈ info, f.bufid = B) (hHole : holeRemains info = true) :
    emitted (reassembly info) = [] := by
  cases info with
  | nil => rfl
  | cons f rest => rw [reassembly_cons_error]; rfl

theorem C5_hole_no_completion_witness :
    (∀ f ∈ [({ fo := 8, ihl := 20, mf := false, tl := 28, bufid := 5,
               raw := [1, 2, 3, 4, 5, 6, 7, 8], header := [6, 6] } : IPFrag)],
        f.bufid = 5) ∧
    holeRemains
      [{ fo := 8, ihl := 20, mf := false, tl := 28, bufid := 5,
         raw := [1, 2, 3, 4, 5, 6, 7, 8], header := [6, 6] }] = true ∧
    emitted (reassembly
      [{ fo := 8, ihl := 20, mf := false, tl := 28, bufid := 5,
         raw := [1, 2, 3, 4, 5, 6, 7, 8], header := [6, 6] }]) = [] :=
  ⟨by decide, by decide,
    C5_hole_no_completion
      [{ fo := 8, ihl := 20, mf := false, tl := 28, bufid := 5,
         raw := [1, 2, 3, 4, 5, 6, 7, 8], header := [6, 6] }] 5
      (by decide) (by decide)⟩

/-- C6.  Claimed: a write whose target range exceeds the pre-sized 65535-byte
capacity is rejected non-fatally, and writes never exceed the declared total
length.  The code has no capacity check at all on the write path (ip.py
lines 44-56), and every submission — over-capacity or not — raises
`UnboundLocalError` at line 56, which is fatal to the whole call rather than
a counted per-fragment rejection.  Shown on a fragment whose target range
`[65528, 65628)` exceeds the 65535-byte data region. -/
theorem C6_capacity_code_raises :
    reassembly
      [{ fo := 65528, ihl := 20, mf := true, tl := 120, bufid := 6,
         raw := List.replicate 100 8, header := List.replicate 20 3 }] =
      Except.error (PyErr.unboundLocalError "data") :=
  reassembly_cons_error _ _

/-- C7.  Claimed: a submission marks exactly the 8-byte blocks of the receipt
bitmap covering `[FO, FO + L)` and no others.  The bit-table update of ip.py
line 61 is never reached (line 56 raises first); moreover that statement
subscripts the buffer dict with the undefined global name `RCVBT` and
assigns `stop - start + 1` mark bytes into a `stop - start` slice, which for
a Python bytearray inserts an extra marked block. -/
theorem C7_rcvbt_code_raises :
    reassembly
      [{ fo := 0, ihl := 20, mf := true, tl := 28, bufid := 7,
         raw := [21, 22, 23, 24, 25, 26, 27, 28], header := List.replicate 20 4 }] =
      Except.error (PyErr.unboundLocalError "data") :=
  reassembly_cons_error _ _

/-- C8.  Claimed: an unfragmented packet whose BUFID already has a buffer
makes the engine emit the buffer's accumulated header and payload and drop
the buffer.  Two failures: (i) a buffer can never pre-exist, because every
earlier fragment's submission raises `UnboundLocalError` at ip.py line 56
(first conjunct: the two-fragment duplicate scenario raises on fragment
one); (ii) even on a state in which a buffer for the BUFID is present, the
emit branch itself (lines 34-40) raises `NameError` on the undefined global
name `Info` before anything is appended (second conjunct). -/
theorem C8_duplicate_code_raises :
    reassembly
      [{ fo := 8, ihl := 20, mf := true, tl := 28, bufid := 9,
         raw := [31, 32, 33, 34, 35, 36, 37, 38], header := [5, 5] },
       { fo := 0, ihl := 20, mf := false, tl := 28, bufid := 9,
         raw := [41, 42, 43, 44, 45, 46, 47, 48], header := [5, 5] }] =
      Except.error (PyErr.unboundLocalError "data") ∧
    reassemblyStep { initRState with buffer := [(9, initIPBuf)] }
      { fo := 0, ihl := 20, mf := false, tl := 28, bufid := 9,
        raw := [41, 42, 43, 44, 45, 46, 47, 48], header := [5, 5] } =
      Except.error (PyErr.nameError "Info") :=
  ⟨reassembly_cons_error _ _, rfl⟩

/-!
Part 2 embeds `src/src/fundations/extraction.py` (`Extractor`).

The record decoder `Frame` (module `jspcap.protocols.pcap.frame`) belongs to
the repository but is not under `src/`; following the spec it is modelled as
an input stream of decode outcomes.  Everything else below is translated
from `extraction.py` itself.  Note that `CPU_CNT` is at least 1 on every
platform (lines 43-48), so `self._flag_m = (self._flag_a and CPU_CNT)` (line
307) is truthy exactly when `auto=True`; manual stepping (`auto=False`)
therefore always takes the sequential branches.
-/

/-- Exception values raised by the embedded extractor code. -/
inductive ExtExc where
  | eofError
  | iterableError
  | callableError
  deriving Repr, DecidableEq

/-- Sequential extractor state.  `flag_a` is `self._flag_a` (auto), `flag_d`
is `self._flag_d` (store), `flag_e` is `self._flag_e` (EOF), `fileOpen`
tracks whether `self._ifile` has been closed, `frnum` is `self._frnum`,
`frames` is `self._frame`, `reasm` abstracts the three reassembly engines of
`self._reasm`, and `input` is the remaining stream of decode outcomes.

Modelled from the spec: the decoder `Frame(self._ifile, ...)` is not under
src/; one decode attempt consumes the head of `input`, where `some f` is a
successfully decoded frame and `none` means the decoder raises `EOFError` —
which per the spec covers both genuine end-of-input and a decode failure,
treated identically.  An exhausted stream also decodes as `EOFError`. -/
structure Extractor (σ π : Type) where
  flag_a : Bool
  flag_d : Bool
  flag_e : Bool
  fileOpen : Bool
  frnum : Nat
  frames : List π
  reasm : σ
  input : List (Option π)

/-- `Extractor._extract_frame` in sequential mode (extraction.py lines
487-490 and 506-507): raise `EOFError` when the EOF flag is set, otherwise
decode one record from the input. -/
def extract_frame {σ π : Type} (st : Extractor σ π) : Except ExtExc (π × Extractor σ π) :=
  if st.flag_e then Except.error ExtExc.eofError
  else
    match st.input with
    | some f :: rest => Except.ok (f, { st with input := rest })
    | _ => Except.error ExtExc.eofError

/-- `Extractor._analyse_frame_ng` in sequential mode (extraction.py lines
526-560, else branch): record fragments into the reassembly engines (lines
542-547, abstracted by `analyse`), append the frame to the stored history
when the store flag is set, and advance the frame number (lines 556-560).
The output-sink write of lines 532-539 is outside the claims and omitted. -/
def analyse_frame_ng {σ π : Type} (analyse : σ → π → σ)
    (st : Extractor σ π) (f : π) : Extractor σ π :=
  { st with
    reasm := analyse st.reasm f
    frames := if st.flag_d then st.frames ++ [f] else st.frames
    frnum := st.frnum + 1 }

/-- `Extractor._record_frames` in sequential mode (extraction.py lines
444-447): extract one frame, analyse it, return it; an `EOFError` from the
extraction propagates. -/
def record_frames {σ π : Type} (analyse : σ → π → σ)
    (st : Extractor σ π) : Except ExtExc (π × Extractor σ π) :=
  match extract_frame st with
  | Except.ok (f, st1) => Except.ok (f, analyse_frame_ng analyse st1 f)
  | Except.error e => Except.error e

/-- Outcome of one `__next__` call: a frame, the normal `StopIteration`
signal, or a propagating application error. -/
inductive StepOutcome (σ π : Type) where
  | frame (f : π) (st : Extractor σ π)
  | stopIteration (st : Extractor σ π)
  | appError (e : ExtExc) (st : Extractor σ π)

/-- `Extractor.__next__` (extraction.py lines 373-378): return the next
frame; on `EOFError` close the input file and raise `StopIteration`.  Only
`EOFError` is caught; any other exception would propagate as an application
error. -/
def next {σ π : Type} (analyse : σ → π → σ) (st : Extractor σ π) : StepOutcome σ π :=
  match record_frames analyse st with
  | Except.ok (f, st1) => StepOutcome.frame f st1
  | Except.error ExtExc.eofError => StepOutcome.stopIteration { st with fileOpen := false }
  | Except.error e => StepOutcome.appError e st

/-- `Extractor.__iter__` (extraction.py lines 368-371): the extractor itself
when `auto=False`, otherwise `IterableError`. -/
def iter {σ π : Type} (st : Extractor σ π) : Except ExtExc (Extractor σ π) :=
  if st.flag_a = false then Except.ok st else Except.error ExtExc.iterableError

/-- Outcome of one `__call__`: a frame, or a raised exception together with
the extractor state at the raise. -/
inductive CallOutcome (σ π : Type) where
  | frame (f : π) (st : Extractor σ π)
  | raised (e : ExtExc) (st : Extractor σ π)

/-- `Extractor.__call__` (extraction.py lines 380-387): when `auto=False`,
extract and return one frame, closing the input file and re-raising on
`EOFError`; when `auto=True`, raise `CallableError`. -/
def callExtractor {σ π : Type} (analyse : σ → π → σ)
    (st : Extractor σ π) : CallOutcome σ π :=
  if st.flag_a = false then
    match record_frames analyse st with
    | Except.ok (f, st1) => CallOutcome.frame f st1
    | Except.error ExtExc.eofError =>
        CallOutcome.raised ExtExc.eofError { st with fileOpen := false }
    | Except.error e => CallOutcome.raised e st
  else CallOutcome.raised ExtExc.callableError st

/-- Shared multiprocessing namespace `self._mpkit` (extraction.py lines
355-363): the EOF flag, the `curent` turn counter, the frame storage dict
(kept here as the list of insertions in insertion order), and the shared
reassembly state. -/
structure MpKit (σ π : Type) where
  eof : Bool
  curent : Nat
  frames : List (Nat × π)
  reasm : σ

/-- Complete effect of a parallel worker's analysis when no other worker
intervenes between its steps, composed in source order (extraction.py lines
518-521 and 541-555): pull the shared reassembly state and record the
frame's fragments into the local copy (line 518 and lines 542-547,
abstracted by `analyse`); attempt the frame store of lines 551-553 — an
item assignment into the dict fetched from the `Manager().Namespace()`
proxy, which returns a copy on attribute access, so the insert lands only in
the worker-local `_localFrames` and `kit.frames` is unchanged; release the
turn by incrementing `curent` (line 555); then push the local reassembly
state back (line 521).  Note the source releases the turn *before* the
push, so in general another worker may interleave between those two
operations; that interleaved semantics is modelled by `raceStep` below, and
this composed form is the special case of an uninterleaved schedule, which
is all the serialised driver model `read_frame` uses. -/
def mp_analyse_frame {σ π : Type} (analyse : σ → π → σ) (flag_d : Bool)
    (num : Nat) (f : π) (kit : MpKit σ π) : MpKit σ π :=
  let localReasm := analyse kit.reasm f
  let _localFrames : List (Nat × π) :=
    if flag_d then kit.frames ++ [(num, f)] else kit.frames
  { kit with
    curent := kit.curent + 1
    reasm := localReasm }

/-- `Extractor._extract_frame` in multiprocessing mode (extraction.py lines
493-504), for the worker handling frame `num`: decode outcome `some f` leads
to analysis; an `EOFError` from the decoder — end-of-input or decode failure
alike — sets the shared `mpkit.eof` flag for the whole pipeline (lines
500-501). -/
def mp_extract_frame {σ π : Type} (analyse : σ → π → σ) (flag_d : Bool)
    (num : Nat) (outcome : Option π) (kit : MpKit σ π) : MpKit σ π :=
  match outcome with
  | some f => mp_analyse_frame analyse flag_d num f kit
  | none => { kit with eof := true }

/-- The dispatch loop `Extractor._read_frame` (extraction.py lines 449-485):
at the top of each round, a set shared `eof` flag ends the loop for the
whole pipeline (line 460, `_update_eof`); otherwise the next frame number is
dispatched to a worker.  The pool admission control of lines 463 and 483-485
bounds how many decodes are in flight but not which analyses run; the turn
gate of `_analyse_frame` (line 513) admits at most one worker at a time, in
frame-number order, so for the termination property at issue here the loop
is modelled with each dispatched worker's decode-and-analyse effect applied
in frame order, each worker running uninterleaved.  The interleavings that
the gate does not rule out (another worker acting between a worker's turn
release and its reassembly push) are the subject of the race model below. -/
def read_frame {σ π : Type} (analyse : σ → π → σ) (flag_d : Bool) :
    List (Option π) → Nat → MpKit σ π → MpKit σ π
  | [], _, kit => kit
  | o :: rest, frnum, kit =>
    if kit.eof then kit
    else read_frame analyse flag_d rest (frnum + 1)
      (mp_extract_frame analyse flag_d frnum o kit)

theorem read_frame_of_eof {σ π : Type} (analyse : σ → π → σ) (flag_d : Bool)
    (os : List (Option π)) (n : Nat) (kit : MpKit σ π) (h : kit.eof = true) :
    read_frame analyse flag_d os n kit = kit := by
  cases os with
  | nil => rfl
  | cons o rest => simp [read_frame, h]

/-- C9.  First decode failure or end-of-input is pipeline-terminal and is
the normal no-more-input signal.  Sequential part: whenever the next decode
would raise `EOFError` (EOF flag already set, failure at the stream head, or
exhausted stream), `__next__` closes the input file and signals
`StopIteration` — not an application error.  Parallel part: with the first
decode failure at position `os1.length` of the outcome stream, the dispatch
loop produces exactly the state obtained from the successful outcomes before
the failure with the shared `eof` flag set; the right-hand side does not
mention the rest of the stream, so nothing past the failing frame is ever
analysed — the failure ends iteration for the whole pipeline. -/
theorem C9_decode_failure_terminal {σ π : Type} (analyse : σ → π → σ) :
    (∀ st : Extractor σ π,
      (st.flag_e = true ∨ st.input.head? = some none ∨ st.input = []) →
      next analyse st = StepOutcome.stopIteration { st with fileOpen := false }) ∧
    (∀ (flag_d : Bool) (os1 os2 : List (Option π)) (frnum : Nat) (kit : MpKit σ π),
      (∀ o ∈ os1, o ≠ none) → kit.eof = false →
      read_frame analyse flag_d (os1 ++ none :: os2) frnum kit =
        { read_frame analyse flag_d os1 frnum kit with eof := true }) := by
  constructor
  · intro st h
    rcases h with h | h | h
    · simp [next, record_frames, extract_frame, h]
    · cases hin : st.input with
      | nil => simp [hin] at h
      | cons o rest =>
        rw [hin] at h
        simp only [List.head?] at h
        cases o with
        | none =>
          by_cases he : st.flag_e <;>
            simp [next, record_frames, extract_frame, he, hin]
        | some f => simp at h
    · by_cases he : st.flag_e <;>
        simp [next, record_frames, extract_frame, he, h]
  · intro flag_d os1
    induction os1 with
    | nil =>
      intro os2 frnum kit _ hkit
      simp only [List.nil_append, read_frame, hkit, if_false]
      rw [read_frame_of_eof _ _ _ _ _ rfl]
      rfl
    | cons o os1 ih =>
      intro os2 frnum kit hsome hkit
      have ho : o ≠ none := hsome o (List.mem_cons_self o os1)
      cases o with
      | none => exact absurd rfl ho
      | some f =>
        have hstep :
            (mp_extract_frame analyse flag_d frnum (some f) kit).eof = kit.eof := rfl
        simp only [List.cons_append, read_frame, hkit, if_false]
        exact ih os2 (frnum + 1) (mp_extract_frame analyse flag_d frnum (some f) kit)
          (fun o ho2 => hsome o (List.mem_cons_of_mem _ ho2)) (hstep.trans hkit)

theorem C9_decode_failure_terminal_witness :
    next (fun (r : List Nat) (f : Nat) => r ++ [f])
      ({ flag_a := false, flag_d := true, flag_e := false, fileOpen := true,
         frnum := 1, frames := [], reasm := [], input := [none, some 5] } :
        Extractor (List Nat) Nat) =
      StepOutcome.stopIteration
        { flag_a := false, flag_d := true, flag_e := false, fileOpen := false,
          frnum := 1, frames := [], reasm := [], input := [none, some 5] } ∧
    read_frame (fun (r : List Nat) (f : Nat) => r ++ [f]) true
      [some 1, some 2, none, some 9] 1
      ({ eof := false, curent := 1, frames := [], reasm := [] } : MpKit (List Nat) Nat) =
      { read_frame (fun (r : List Nat) (f : Nat) => r ++ [f]) true
          [some 1, some 2] 1
          ({ eof := false, curent := 1, frames := [], reasm := [] } : MpKit (List Nat) Nat)
        with eof := true } :=
  ⟨(C9_decode_failure_terminal (fun (r : List Nat) (f : Nat) => r ++ [f])).1 _
      (Or.inr (Or.inl rfl)),
   (C9_decode_failure_terminal (fun (r : List Nat) (f : Nat) => r ++ [f])).2
      true [some 1, some 2] [some 9] 1 _ (by decide) rfl⟩

/-- C10.  Auto and manual mode are mutually exclusive at the public
interface: with `auto=True`, `__iter__` raises `IterableError` and
`__call__` raises `CallableError`; with `auto=False`, `__iter__` returns the
extractor itself, and `__call__` extracts and returns exactly one frame
(consuming one decode outcome, analysing it, advancing the frame number by
one), while a decode that raises `EOFError` makes `__call__` close the input
file and then re-raise the `EOFError`. -/
theorem C10_auto_manual_interface {σ π : Type} (analyse : σ → π → σ)
    (st : Extractor σ π) :
    (st.flag_a = true →
      iter st = Except.error ExtExc.iterableError ∧
      callExtractor analyse st = CallOutcome.raised ExtExc.callableError st) ∧
    (st.flag_a = false →
      iter st = Except.ok st ∧
      (∀ (f : π) (rest : List (Option π)),
        st.flag_e = false → st.input = some f :: rest →
        callExtractor analyse st =
          CallOutcome.frame f (analyse_frame_ng analyse { st with input := rest } f)) ∧
      ((st.flag_e = true ∨ st.input.head? = some none ∨ st.input = []) →
        callExtractor analyse st =
          CallOutcome.raised ExtExc.eofError { st with fileOpen := false })) := by
  constructor
  · intro h
    constructor
    · simp [iter, h]
    · simp [callExtractor, h]
  · intro h
    refine ⟨by simp [iter, h], ?_, ?_⟩
    · intro f rest he hin
      simp [callExtractor, record_frames, extract_frame, h, he, hin]
    · intro hd
      rcases hd with hd | hd | hd
      · simp [callExtractor, record_frames, extract_frame, h, hd]
      · cases hin : st.input with
        | nil => simp [hin] at hd
        | cons o rest =>
          rw [hin] at hd
          simp only [List.head?] at hd
          cases o with
          | none =>
            by_cases he : st.flag_e <;>
              simp [callExtractor, record_frames, extract_frame, h, he, hin]
          | some f => simp at hd
      · by_cases he : st.flag_e <;>
          simp [callExtractor, record_frames, extract_frame, h, he, hd]

theorem C10_auto_manual_interface_witness :
    (iter ({ flag_a := true, flag_d := true, flag_e := false, fileOpen := true,
             frnum := 1, frames := [], reasm := [], input := [some 3] } :
            Extractor (List Nat) Nat) = Except.error ExtExc.iterableError ∧
     callExtractor (fun (r : List Nat) (f : Nat) => r ++ [f])
       { flag_a := true, flag_d := true, flag_e := false, fileOpen := true,
         frnum := 1, frames := [], reasm := [], input := [some 3] } =
       CallOutcome.raised ExtExc.callableError
         { flag_a := true, flag_d := true, flag_e := false, fileOpen := true,
           frnum := 1, frames := [], reasm := [], input := [some 3] }) ∧
    iter ({ flag_a := false, flag_d := true, flag_e := false, fileOpen := true,
            frnum := 1, frames := [], reasm := [], input := [some 3] } :
           Extractor (List Nat) Nat) =
      Except.ok
        { flag_a := false, flag_d := true, flag_e := false, fileOpen := true,
          frnum := 1, frames := [], reasm := [], input := [some 3] } ∧
    callExtractor (fun (r : List Nat) (f : Nat) => r ++ [f])
      { flag_a := false, flag_d := true, flag_e := false, fileOpen := true,
        frnum := 1, frames := [], reasm := [], input := [some 3] } =
      CallOutcome.frame 3
        { flag_a := false, flag_d := true, flag_e := false, fileOpen := true,
          frnum := 2, frames := [3], reasm := [3], input := [] } ∧
    callExtractor (fun (r : List Nat) (f : Nat) => r ++ [f])
      { flag_a := false, flag_d := true, flag_e := false, fileOpen := true,
        frnum := 1, frames := [], reasm := [], input := [none] } =
      CallOutcome.raised ExtExc.eofError
        { flag_a := false, flag_d := true, flag_e := false, fileOpen := false,
          frnum := 1, frames := [], reasm := [], input := [none] } :=
  ⟨(C10_auto_manual_interface (fun (r : List Nat) (f : Nat) => r ++ [f])
      { flag_a := true, flag_d := true, flag_e := false, fileOpen := true,
        frnum := 1, frames := [], reasm := [], input := [some 3] }).1 rfl,
   ((C10_auto_manual_interface (fun (r : List Nat) (f : Nat) => r ++ [f])
      { flag_a := false, flag_d := true, flag_e := false, fileOpen := true,
        frnum := 1, frames := [], reasm := [], input := [some 3] }).2 rfl).1,
   ((C10_auto_manual_interface (fun (r : List Nat) (f : Nat) => r ++ [f])
      { flag_a := false, flag_d := true, flag_e := false, fileOpen := true,
        frnum := 1, frames := [], reasm := [], input := [some 3] }).2 rfl).2.1
      3 [] rfl rfl,
   ((C10_auto_manual_interface (fun (r : List Nat) (f : Nat) => r ++ [f])
      { flag_a := false, flag_d := true, flag_e := false, fileOpen := true,
        frnum := 1, frames := [], reasm := [], input := [none] }).2 rfl).2.2
      (Or.inr (Or.inl rfl))⟩

/-!
Part 3: the parallel analysis hand-off of extraction.py, modelled with its
interleavings, for C4.

In multiprocessing mode each dispatched worker decodes its frame and calls
`_analyse_frame` (extraction.py lines 509-524), which busy-waits on
`while mpkit.curent != self._frnum` (line 513) before touching shared state.
Worker frame numbers are distinct (the driver increments `_frnum` once per
dispatch, line 479), so at most one worker at a time can be past the gate
and before the turn release.  The serialised critical section is lines
518-519 plus 541-555: pull `mpkit.reassembly` (line 518), record the
frame's fragments into the local copy (lines 542-547), attempt the frame
store (lines 551-553), and release the turn with `mpkit.curent += 1` (line
555).  Two aspects of the source are load-bearing for C4 and are modelled
exactly:

* the reassembly push `mpkit.reassembly = copy.deepcopy(self._reasm)` (line
  521) runs *after* `_analyse_frame_ng` returns, i.e. after the turn was
  already released on line 555 — so the next worker may pass the gate and
  pull `mpkit.reassembly` (its line 518) before the previous worker's push
  lands, and the pushes may land in either order;
* the frame store `mpkit.frames[self._frnum] = copy.deepcopy(frame)` (line
  553) subscripts the dict value fetched from the `Manager().Namespace()`
  proxy; attribute access on such a proxy returns a pickled copy, and no
  attribute assignment follows, so the insert mutates only the local copy
  and the shared dict — created as a plain `dict()` on line 361 — never
  changes.

The model therefore splits a worker's analysis into a gate-pass step
(pull + record + ineffective store + release, uninterruptible because the
worker holds the turn throughout) and a separate push step that any
scheduler may delay past other workers' steps.  `aftermath` mirrors
`_aftermathmp` (lines 399-410), which rebuilds `self._frame` as
`[mpkit.frames[x] for x in sorted(mpkit.frames)]`.
-/

/-- Insert a key into a sorted key list (ascending). -/
def insortNat (n : Nat) : List Nat → List Nat
  | [] => [n]
  | m :: ms => if n ≤ m then n :: m :: ms else m :: insortNat n ms

/-- Sorted key order of a dict, as in Python `sorted(self._mpkit.frames)`. -/
def sortNat (l : List Nat) : List Nat := l.foldr insortNat []

/-- Dict item access `mpkit.frames[k]`. -/
def lookupFrame {π : Type} [Inhabited π] : Nat → List (Nat × π) → π
  | _, [] => default
  | k, (n, f) :: rest => if n = k then f else lookupFrame k rest

/-- `Extractor._aftermathmp` (extraction.py lines 399-410): rebuild the frame
history as `[mpkit.frames[x] for x in sorted(mpkit.frames)]` from the shared
frame dict. -/
def aftermath {π : Type} [Inhabited π] (frames : List (Nat × π)) : List π :=
  (sortNat (frames.map Prod.fst)).map (fun k => lookupFrame k frames)

/-- Sequential extractor state for the order-equivalence comparison: stored
history, frame number, reassembly state. -/
structure SeqState (σ π : Type) where
  frames : List π
  frnum : Nat
  reasm : σ
  deriving Repr, DecidableEq

/-- Sequential-mode `_analyse_frame_ng` (extraction.py lines 541-560, else
branch), as it acts on the sequential state. -/
def seq_analyse_frame_ng {σ π : Type} (analyse : σ → π → σ) (flag_d : Bool)
    (st : SeqState σ π) (f : π) : SeqState σ π :=
  { frames := if flag_d then st.frames ++ [f] else st.frames
    frnum := st.frnum + 1
    reasm := analyse st.reasm f }

/-- Sequential-mode extraction of a whole capture: analyse the decoded
frames one after another in capture order (extraction.py lines 444-447
iterated to end-of-input). -/
def seqExtractAll {σ π : Type} (analyse : σ → π → σ) (flag_d : Bool)
    (r0 : σ) (fs : List π) : SeqState σ π :=
  fs.foldl (seq_analyse_frame_ng analyse flag_d) { frames := [], frnum := 1, reasm := r0 }

/-- Assoc-list lookup by worker number. -/
def lookupNat {α : Type} : List (Nat × α) → Nat → Option α
  | [], _ => none
  | (k, v) :: rest, key => if k = key then some v else lookupNat rest key

/-- Remove the entry of a worker number from an assoc list. -/
def removeNat {α : Type} : List (Nat × α) → Nat → List (Nat × α)
  | [], _ => []
  | (k, v) :: rest, key => if k = key then rest else (k, v) :: removeNat rest key

/-- Interleaving state of parallel extraction.  `curent` is `mpkit.curent`;
`arrivals` are the workers whose decode has not yet finished, in decode
completion order, each carrying its frame; `atGate` are the workers spinning
on line 513; `toPush` are the workers that have released the turn (line 555)
but not yet executed the reassembly push of line 521, each carrying its
local `self._reasm`; `frames` is the shared `mpkit.frames` dict (line 361)
and `reasm` the shared `mpkit.reassembly`. -/
structure RaceState (σ π : Type) where
  curent : Nat
  arrivals : List (Nat × π)
  atGate : List (Nat × π)
  toPush : List (Nat × σ)
  frames : List (Nat × π)
  reasm : σ
  deriving Repr

/-- Scheduler choices: the next decode completion, worker `n` passing the
gate, or worker `n` executing its deferred reassembly push. -/
inductive RaceChoice where
  | arrive
  | analyse (n : Nat)
  | push (n : Nat)
  deriving Repr, DecidableEq

/-- One scheduler step.  `arrive` is the next worker's decode finishing (it
starts spinning at the gate, line 513).  `analyse n` is enabled when worker
`n` is at the gate and holds the turn (`n = curent`): it performs, without
interruption (no other worker can be past the gate), lines 518-519 and
541-555 — pull the shared reassembly state and record the frame's fragments
into the local copy (`localReasm`); attempt the frame store of lines
551-553, whose item assignment mutates only `_localFrames`, the worker's
local copy of the Namespace-proxy dict, leaving `st.frames` unchanged; and
release the turn (line 555).  The worker then still owes the push of line
521, so it moves to `toPush` carrying `localReasm`.  `push n` is worker `n`
executing line 521 at any later point the scheduler picks:
`mpkit.reassembly = copy.deepcopy(self._reasm)`.  A disabled choice returns
`none`. -/
def raceStep {σ π : Type} (analyse : σ → π → σ) (flag_d : Bool) :
    RaceState σ π → RaceChoice → Option (RaceState σ π)
  | st, RaceChoice.arrive =>
    match st.arrivals with
    | [] => none
    | w :: rest => some { st with arrivals := rest, atGate := st.atGate ++ [w] }
  | st, RaceChoice.analyse n =>
    match lookupNat st.atGate n with
    | some f =>
      if n = st.curent then
        let localReasm := analyse st.reasm f
        let _localFrames : List (Nat × π) :=
          if flag_d then st.frames ++ [(n, f)] else st.frames
        some { st with
          atGate := removeNat st.atGate n
          toPush := st.toPush ++ [(n, localReasm)]
          curent := st.curent + 1 }
      else none
    | none => none
  | st, RaceChoice.push n =>
    match lookupNat st.toPush n with
    | some r => some { st with toPush := removeNat st.toPush n, reasm := r }
    | none => none

/-- Run a whole schedule; `none` if some choice was disabled. -/
def raceRun {σ π : Type} (analyse : σ → π → σ) (flag_d : Bool) :
    List RaceChoice → RaceState σ π → Option (RaceState σ π)
  | [], st => some st
  | c :: cs, st =>
    match raceStep analyse flag_d st c with
    | some st1 => raceRun analyse flag_d cs st1
    | none => none

/-- Initial shared state (extraction.py lines 357-363): `curent = 1`, no
worker finished, the frame dict empty (a plain `dict()`, line 361), initial
reassembly state; `order` lists the workers in decode completion order. -/
def raceInit {σ π : Type} (order : List (Nat × π)) (r0 : σ) : RaceState σ π :=
  { curent := 1, arrivals := order, atGate := [], toPush := [], frames := [], reasm := r0 }

/-- C4.  Claimed: parallel-mode extraction produces a frame history and
reassembly results identical to sequential-mode extraction, for every
decode completion order.  The code fails this in two ways, shown on two
frames (contents 10 and 20, fragment recording modelled as list append,
store flag set).  Run A is the friendliest complete schedule — every worker
pushes before the next one passes the gate — yet the shared frame dict ends
empty, because the store of line 553 never reaches it (Namespace-proxy
copy), so `_aftermathmp` rebuilds an empty history while the sequential
history is `[10, 20]`.  Run B is a complete schedule the gate admits —
worker 2 passes the gate after worker 1's turn release (line 555) but
before worker 1's reassembly push (line 521), so it pulls the pre-frame-1
state, and the pushes land with worker 1's last — giving final reassembly
state `[10]` where the sequential result is `[10, 20]`: frame 2's fragments
are lost and frame 1's push clobbers them. -/
theorem C4_parallel_not_equiv_code :
    raceRun (fun (r : List Nat) (f : Nat) => r ++ [f]) true
      [RaceChoice.arrive, RaceChoice.analyse 1, RaceChoice.push 1,
       RaceChoice.arrive, RaceChoice.analyse 2, RaceChoice.push 2]
      (raceInit [(1, 10), (2, 20)] []) =
      some ({ curent := 3, arrivals := [], atGate := [], toPush := [],
              frames := [], reasm := [10, 20] } : RaceState (List Nat) Nat) ∧
    aftermath (({ curent := 3, arrivals := [], atGate := [], toPush := [],
                  frames := [], reasm := [10, 20] } :
                RaceState (List Nat) Nat).frames) = [] ∧
    (seqExtractAll (fun (r : List Nat) (f : Nat) => r ++ [f]) true [] [10, 20]).frames
      = [10, 20] ∧
    raceRun (fun (r : List Nat) (f : Nat) => r ++ [f]) true
      [RaceChoice.arrive, RaceChoice.arrive, RaceChoice.analyse 1,
       RaceChoice.analyse 2, RaceChoice.push 2, RaceChoice.push 1]
      (raceInit [(1, 10), (2, 20)] []) =
      some ({ curent := 3, arrivals := [], atGate := [], toPush := [],
              frames := [], reasm := [10] } : RaceState (List Nat) Nat) ∧
    (seqExtractAll (fun (r : List Nat) (f : Nat) => r ++ [f]) true [] [10, 20]).reasm
      = [10, 20] :=
  ⟨rfl, rfl, rfl, rfl, rfl⟩

end PCAPKit
